import Mathlib

/-!
# Verification of the PATS API example client

Shallow embedding of the HTTP client code in `pats_service.py`, `patsService.py`,
`example.py`, `main.py` and `plot_examples.py`.  Each Python function that builds
a request and handles a response is modelled as a Lean function from its arguments
to a pair of the constructed request and a handler mapping an arbitrary server
response to the observable outcome (a returned value, a raised exception, or a
process exit via `sys.exit`).
-/

/-! ## JSON values (the parsed form of a response body) -/

/-- A JSON value, as produced by `response.json()` / `json.loads(response.text)`. -/
inductive Json where
  | null : Json
  | boolean : Bool → Json
  | num : Int → Json
  | str : String → Json
  | arr : List Json → Json
  | obj : List (String × Json) → Json
deriving Repr

/-- Lookup of a top-level key in a JSON object, `none` when the key is absent
or the value is not an object.  Models Python dict key lookup. -/
def Json.getKey : Json → String → Option Json
  | .obj fields, k => fields.lookup k
  | _, _ => Option.none

/-! ## Python runtime values and `str()` coercion -/

/-- A Python runtime value, as far as the client code manipulates one:
ints, strings, dicts, lists and `None`. -/
inductive Py where
  | int : Int → Py
  | str : String → Py
  | dict : List (String × Py) → Py
  | list : List Py → Py
  | pynone : Py
deriving Repr

/-- A single-quote character, written via its code point. -/
def squo : String := "\x27"

/-- Opening brace as text. -/
def lbrace : String := "\x7b"

/-- Closing brace as text. -/
def rbrace : String := "\x7d"

mutual

/-- Python `repr()` on the values of `Py`. -/
def pyRepr : Py → String
  | .int n => toString n
  | .str s => squo ++ s ++ squo
  | .dict fs => lbrace ++ pyReprFields fs ++ rbrace
  | .list xs => "[" ++ pyReprElems xs ++ "]"
  | .pynone => "None"

/-- `repr()` of the comma-separated items of a Python dict. -/
def pyReprFields : List (String × Py) → String
  | [] => ""
  | [(k, v)] => squo ++ k ++ squo ++ ": " ++ pyRepr v
  | (k, v) :: rest => squo ++ k ++ squo ++ ": " ++ pyRepr v ++ ", " ++ pyReprFields rest

/-- `repr()` of the comma-separated items of a Python list. -/
def pyReprElems : List Py → String
  | [] => ""
  | [v] => pyRepr v
  | v :: rest => pyRepr v ++ ", " ++ pyReprElems rest

end

/-- Python `str()`: the identity on strings, `repr()` on every other value.
`str(dict)` in particular yields the brace-delimited repr of the whole dict. -/
def pyStr : Py → String
  | .str s => s
  | v => pyRepr v

/-! ## Exceptions, outcomes -/

/-- The exceptions the client code can let escape to its caller. -/
inductive PyExc where
  | keyError : String → PyExc
  | patsServiceError : String → PyExc
  | exc : String → PyExc
deriving Repr, DecidableEq

/-- The observable outcome of running one client operation against a response:
a returned value, `sys.exit(code)` terminating the process, or a raised
exception propagating to the caller. -/
inductive Outcome (α : Type) where
  | ok : α → Outcome α
  | exit : Nat → Outcome α
  | raised : PyExc → Outcome α
deriving Repr

/-- Whether the outcome terminates the whole process (`sys.exit`). -/
def Outcome.terminatesProcess {α : Type} : Outcome α → Bool
  | .exit _ => true
  | _ => false

/-- Whether the outcome is a failure of the one exception type the repository
itself defines, `PatsServiceError` (`pats_service.py` line 14).  The code defines
no other typed failure; in particular there is no `DecodeFailed` type. -/
def Outcome.isTypedPatsFailure {α : Type} : Outcome α → Bool
  | .raised (.patsServiceError _) => true
  | _ => false

/-- Python `d[k]` on a parsed JSON object: the value when the key is present,
a `KeyError` propagating to the caller when it is absent. -/
def pyIndex (j : Json) (k : String) : Outcome Json :=
  match j.getKey k with
  | some v => .ok v
  | Option.none => .raised (.keyError k)

/-! ## HTTP requests and responses -/

/-- A value placed in the `params` dict handed to `requests.get`:
a string, an int, or Python `None`. -/
inductive ReqVal where
  | str : String → ReqVal
  | int : Int → ReqVal
  | omitted : ReqVal
deriving Repr, DecidableEq

/-- A constructed HTTP request: method, path relative to the server origin, and
the query parameters (before URL encoding). -/
structure Request where
  method : String
  path : String
  params : List (String × ReqVal)
deriving Repr, DecidableEq

/-- The `requests` library's encoding of the params dict into the query string:
entries whose value is `None` are dropped entirely, strings pass through, and
ints are stringified. -/
def encodeParams : List (String × ReqVal) → List (String × String)
  | [] => []
  | (_, ReqVal.omitted) :: rest => encodeParams rest
  | (k, ReqVal.str s) :: rest => (k, s) :: encodeParams rest
  | (k, ReqVal.int n) :: rest => (k, toString n) :: encodeParams rest

/-- A server response as the client observes it: HTTP status code, body as text
(`response.text`), body as parsed JSON (`response.json()`), and raw bytes
(`response.content`, modelled as an opaque string). -/
structure Response where
  status : Nat
  text : String
  body : Json
  content : String

/-- `",".join(map(str, ids))`. -/
def commaJoin (ids : List Int) : String :=
  String.intercalate "," (ids.map toString)

/-- Python `str()` on an `Optional[int]`: `str(None)` is the string `"None"`. -/
def strOfOptInt : Option Int → String
  | some n => toString n
  | Option.none => "None"

/-! ## Fixed-width decimal formatting and parsing (strftime / strptime) -/

/-- The character of one decimal digit. -/
def digitChar (d : Nat) : Char := Char.ofNat (48 + d)

/-- The `k`-digit zero-padded decimal representation of `n` (for `n < 10 ^ k`),
most significant digit first.  This is what `strftime` produces for the
fixed-width fields `%Y`, `%m`, `%d`, `%H`, `%M`, `%S`. -/
def padChars : Nat → Nat → List Char
  | 0, _ => []
  | k + 1, n => padChars k (n / 10) ++ [digitChar (n % 10)]

/-- Read a run of decimal digit characters left to right onto an accumulator;
`none` as soon as a non-digit is met.  Models fixed-width `strptime` fields. -/
def readDigits : List Char → Nat → Option Nat
  | [], acc => some acc
  | c :: cs, acc =>
      if 48 ≤ c.toNat ∧ c.toNat ≤ 57 then readDigits cs (10 * acc + (c.toNat - 48))
      else Option.none

/-- A Python `datetime.date`. -/
structure PyDate where
  year : Nat
  month : Nat
  day : Nat
deriving Repr, DecidableEq

/-- A Python `datetime.datetime` (microseconds are never formatted by the
client, so they are not modelled). -/
structure PyDateTime where
  year : Nat
  month : Nat
  day : Nat
  hour : Nat
  minute : Nat
  second : Nat
deriving Repr, DecidableEq

/-- The bounds Python's `datetime.date` enforces (day bound abstracted to 31;
the per-month day count does not matter to any formatting claim). -/
def PyDate.valid (d : PyDate) : Prop :=
  1 ≤ d.year ∧ d.year ≤ 9999 ∧ 1 ≤ d.month ∧ d.month ≤ 12 ∧ 1 ≤ d.day ∧ d.day ≤ 31

instance (d : PyDate) : Decidable d.valid := by unfold PyDate.valid; infer_instance

/-- The bounds Python's `datetime.datetime` enforces on the fields the client
formats. -/
def PyDateTime.valid (t : PyDateTime) : Prop :=
  1 ≤ t.year ∧ t.year ≤ 9999 ∧ 1 ≤ t.month ∧ t.month ≤ 12 ∧ 1 ≤ t.day ∧ t.day ≤ 31
    ∧ t.hour ≤ 23 ∧ t.minute ≤ 59 ∧ t.second ≤ 59

instance (t : PyDateTime) : Decidable t.valid := by unfold PyDateTime.valid; infer_instance

/-- The date part of a datetime (what `strftime` with a date-only format reads). -/
def PyDateTime.toDate (t : PyDateTime) : PyDate := ⟨t.year, t.month, t.day⟩

/-- `d.strftime("%Y%m%d")`. -/
def fmtYmd (d : PyDate) : String :=
  String.mk (padChars 4 d.year ++ (padChars 2 d.month ++ padChars 2 d.day))

/-- `t.strftime("%Y%m%d_%H%M%S")`. -/
def fmtYmdHms (t : PyDateTime) : String :=
  String.mk (padChars 4 t.year ++ (padChars 2 t.month ++ (padChars 2 t.day ++
    ([Char.ofNat 95] ++ (padChars 2 t.hour ++ (padChars 2 t.minute ++ padChars 2 t.second))))))

/-- `strftime("%Y%m%d")` applied to a datetime, as `download_counts` does. -/
def fmtYmdOfDateTime (t : PyDateTime) : String := fmtYmd t.toDate

/-- Fixed-width positional decoding of the characters of a `"%Y%m%d"` string:
four digits of year, two of month, two of day, with the range checks
`datetime.date` applies. -/
def parseYmdChars (cs : List Char) : Option PyDate :=
  if cs.length = 8 then
    match readDigits (cs.take 4) 0, readDigits ((cs.drop 4).take 2) 0,
        readDigits (cs.drop 6) 0 with
    | some y, some m, some d =>
        if 1 ≤ y ∧ y ≤ 9999 ∧ 1 ≤ m ∧ m ≤ 12 ∧ 1 ≤ d ∧ d ≤ 31 then some ⟨y, m, d⟩
        else Option.none
    | _, _, _ => Option.none
  else Option.none

/-- Decoding of a `"%Y%m%d"` string back into a date
(`pd.to_datetime(s, format="%Y%m%d")` / `strptime`). -/
def parseYmd (s : String) : Option PyDate := parseYmdChars s.data

/-- Fixed-width positional decoding of the characters of a `"%Y%m%d_%H%M%S"`
string, the underscore separator checked at position 8. -/
def parseYmdHmsChars (cs : List Char) : Option PyDateTime :=
  if cs.length = 15 then
    match readDigits (cs.take 4) 0, readDigits ((cs.drop 4).take 2) 0,
        readDigits ((cs.drop 6).take 2) 0, (cs.drop 8).take 1,
        readDigits ((cs.drop 9).take 2) 0, readDigits ((cs.drop 11).take 2) 0,
        readDigits (cs.drop 13) 0 with
    | some y, some mo, some d, [c], some h, some mi, some s2 =>
        if c = Char.ofNat 95 ∧ 1 ≤ y ∧ y ≤ 9999 ∧ 1 ≤ mo ∧ mo ≤ 12 ∧ 1 ≤ d ∧ d ≤ 31
            ∧ h ≤ 23 ∧ mi ≤ 59 ∧ s2 ≤ 59 then
          some ⟨y, mo, d, h, mi, s2⟩
        else Option.none
    | _, _, _, _, _, _, _ => Option.none
  else Option.none

/-- Decoding of a `"%Y%m%d_%H%M%S"` string back into a datetime
(`pd.to_datetime(s, format="%Y%m%d_%H%M%S")` / `strptime`). -/
def parseYmdHms (s : String) : Option PyDateTime := parseYmdHmsChars s.data

/-! ## Calendar arithmetic for `timedelta(days=n)` subtraction -/

/-- Gregorian leap year. -/
def isLeap (y : Nat) : Bool := y % 4 = 0 && (y % 100 ≠ 0 || y % 400 = 0)

/-- Days in a Gregorian month. -/
def daysInMonth (y m : Nat) : Nat :=
  if m = 2 then (if isLeap y then 29 else 28)
  else if m = 4 ∨ m = 6 ∨ m = 9 ∨ m = 11 then 30
  else 31

/-- The previous calendar day, keeping the time of day. -/
def prevDay (t : PyDateTime) : PyDateTime :=
  if 1 < t.day then { t with day := t.day - 1 }
  else if 1 < t.month then
    { t with month := t.month - 1, day := daysInMonth t.year (t.month - 1) }
  else { t with year := t.year - 1, month := 12, day := 31 }

/-- `t - timedelta(days=n)`: stepping back `n` calendar days, time of day kept. -/
def minusDays : Nat → PyDateTime → PyDateTime
  | 0, t => t
  | n + 1, t => minusDays n (prevDay t)

/-! ## The token-scheme client, `pats_service.py` (class `PatsService`)

Each operation is modelled as a function from its Python arguments to a pair:
the request it constructs (method, path, params) and a handler from an
arbitrary server response to the outcome the Python function produces
(return value, `sys.exit(1)`, or a raised exception). -/

namespace PatsService

/-- `__retrieve_token_from_server` (lines 42-70): POST to `/token`; on any
non-200 status `sys.exit(1)`; otherwise `response.json()["access_token"]`. -/
def retrieve_token_from_server (r : Response) : Outcome Json :=
  if r.status ≠ 200 then .exit 1
  else pyIndex r.body "access_token"

/-- `download_detection_classes` (lines 72-112): GET `/api/detection_classes`;
non-200 → `sys.exit(1)`; else `response.json()["detection_classes"]`. -/
def download_detection_classes : Request × (Response → Outcome Json) :=
  (⟨"GET", "/api/detection_classes", []⟩,
   fun r => if r.status ≠ 200 then .exit 1 else pyIndex r.body "detection_classes")

/-- `download_sections` (lines 114-171): GET `/api/sections`;
non-200 → `sys.exit(1)`; else `json.loads(response.text)["sections"]`. -/
def download_sections : Request × (Response → Outcome Json) :=
  (⟨"GET", "/api/sections", []⟩,
   fun r => if r.status ≠ 200 then .exit 1 else pyIndex r.body "sections")

/-- `download_spots` (lines 174-230): GET `/api/spots` with `section_id` and
`snapping_mode`; non-200 → `sys.exit(1)`; else the whole `response.json()`. -/
def download_spots (section_id : Int) (snapping_mode : String) :
    Request × (Response → Outcome Json) :=
  (⟨"GET", "/api/spots",
    [("section_id", .str (toString section_id)), ("snapping_mode", .str snapping_mode)]⟩,
   fun r => if r.status ≠ 200 then .exit 1 else .ok r.body)

/-- `download_counts` (lines 232-369): GET `/api/counts`.  The section id is
coerced with `str()` whatever it is (modelled by taking a `Py` value), the dates
are formatted `"%Y%m%d"`, the id list becomes a comma-joined string or `None`
when the list is empty (falsy), and the 24h-average flag becomes the int
`int(average_24h_bin)`.  Non-200 → `sys.exit(1)`; else the raw
`response.json()` is returned unchanged. -/
def download_counts (start_date end_date : PyDateTime) (section_id : Py)
    (detection_class_ids : List Int) (bin_mode : String) (average_24h_bin : Bool) :
    Request × (Response → Outcome Json) :=
  (⟨"GET", "/api/counts",
    [("section_id", .str (pyStr section_id)),
     ("start_date", .str (fmtYmdOfDateTime start_date)),
     ("end_date", .str (fmtYmdOfDateTime end_date)),
     ("detection_class_ids",
       match detection_class_ids with
       | [] => .omitted
       | _ => .str (commaJoin detection_class_ids)),
     ("bin_mode", .str bin_mode),
     ("average_24h_bin", .int (if average_24h_bin then 1 else 0))]⟩,
   fun r => if r.status ≠ 200 then .exit 1 else .ok r.body)

/-- `download_trapeye_photo_list` (lines 371-424): GET `/api/trapeye_photo_list`;
non-200 → `sys.exit(1)`; else `response.json()["photos"]`. -/
def download_trapeye_photo_list (section_id row_id post_id : Int)
    (start_date end_date : PyDateTime) : Request × (Response → Outcome Json) :=
  (⟨"GET", "/api/trapeye_photo_list",
    [("section_id", .str (toString section_id)),
     ("row_id", .str (toString row_id)),
     ("post_id", .str (toString post_id)),
     ("start_date", .str (fmtYmdOfDateTime start_date)),
     ("end_date", .str (fmtYmdOfDateTime end_date))]⟩,
   fun r => if r.status ≠ 200 then .exit 1 else pyIndex r.body "photos")

/-- `download_trapeye_photo` (lines 426-457): GET `/api/download_trapeye_photo`;
non-200 → `raise PatsServiceError(response.text)` (the one operation that raises
the repository's own exception type instead of exiting); else the image bytes
(`Image.open(BytesIO(response.content))` abstracted as the bytes themselves). -/
def download_trapeye_photo (section_id row_id post_id : Int) (photo_id : String) :
    Request × (Response → Outcome String) :=
  (⟨"GET", "/api/download_trapeye_photo",
    [("section_id", .str (toString section_id)),
     ("row_id", .str (toString row_id)),
     ("post_id", .str (toString post_id)),
     ("datetime", .str photo_id)]⟩,
   fun r => if r.status ≠ 200 then .raised (.patsServiceError r.text) else .ok r.content)

/-- `download_c_detection_features` (lines 459-546): GET
`/api/download_detection_features`.  When `system_id is None` the params carry
`row_id`/`post_id` (each through `str()`, so a `None` id becomes `"None"`);
otherwise the legacy `system_id` replaces them.  Non-200 → `sys.exit(1)`; else
`pd.DataFrame.from_records(response.json()["data"])` (the `DataFrame`
construction is the identity on the record list). -/
def download_c_detection_features (section_id : Int) (row_id post_id system_id : Option Int)
    (detection_class_id : Int) (start_date end_date : PyDateTime) :
    Request × (Response → Outcome Json) :=
  (⟨"GET", "/api/download_detection_features",
    match system_id with
    | Option.none =>
        [("section_id", .str (toString section_id)),
         ("row_id", .str (strOfOptInt row_id)),
         ("post_id", .str (strOfOptInt post_id)),
         ("detection_class_id", .str (toString detection_class_id)),
         ("start_datetime", .str (fmtYmdHms start_date)),
         ("end_datetime", .str (fmtYmdHms end_date))]
    | some sysid =>
        [("section_id", .str (toString section_id)),
         ("system_id", .str (toString sysid)),
         ("detection_class_id", .str (toString detection_class_id)),
         ("start_datetime", .str (fmtYmdHms start_date)),
         ("end_datetime", .str (fmtYmdHms end_date))]⟩,
   fun r => if r.status ≠ 200 then .exit 1 else pyIndex r.body "data")

/-- `download_c_flight_track` (lines 548-620): GET `/api/download_c_flight_track`;
non-200 → `sys.exit(1)`; else `response.json()["data"]` as records. -/
def download_c_flight_track (section_id detection_uid : Int) :
    Request × (Response → Outcome Json) :=
  (⟨"GET", "/api/download_c_flight_track",
    [("section_id", .str (toString section_id)),
     ("detection_uid", .str (toString detection_uid))]⟩,
   fun r => if r.status ≠ 200 then .exit 1 else pyIndex r.body "data")

/-- `download_c_video` (lines 622-654): GET `/api/download_c_video` with
`raw_stereo` sent as `str(int(raw_stereo))`; non-200 → `sys.exit(1)`;
else the raw `response.content` bytes. -/
def download_c_video (section_id detection_uid : Int) (raw_stereo : Bool) :
    Request × (Response → Outcome String) :=
  (⟨"GET", "/api/download_c_video",
    [("section_id", .str (toString section_id)),
     ("detection_uid", .str (toString detection_uid)),
     ("raw_stereo", .str (toString (if raw_stereo then (1 : Int) else 0)))]⟩,
   fun r => if r.status ≠ 200 then .exit 1 else .ok r.content)

end PatsService

/-! ## The older token-scheme variant, `patsService.py` -/

namespace PatsServiceLegacy

/-- `download_sections` of `patsService.py` (lines 101-158): despite its name,
its docstring and its log messages, the GET goes to `/api/detection_classes`
(line 152); on a 200 it then reads `response.json()["sections"]`. -/
def download_sections : Request × (Response → Outcome Json) :=
  (⟨"GET", "/api/detection_classes", []⟩,
   fun r => if r.status ≠ 200 then .exit 1 else pyIndex r.body "sections")

/-- `download_spots` of `patsService.py` (lines 160-212): the boolean
`map_snapping` flag is sent as `int(map_snapping == True)`. -/
def download_spots (section_id : Int) (map_snapping : Bool) :
    Request × (Response → Outcome Json) :=
  (⟨"GET", "/api/spots",
    [("section_id", .str (toString section_id)),
     ("map_snapping", .int (if map_snapping then 1 else 0))]⟩,
   fun r => if r.status ≠ 200 then .exit 1 else .ok r.body)

end PatsServiceLegacy

/-! ## The cookie-scheme variant, `example.py` -/

namespace ExampleApi

/-- `login` (example.py lines 36-47): POST to `/login`; a non-200 status raises
`Exception` with the status and body in the message; a 200 whose body is not
the literal `"OK"` raises `Exception` with the body; otherwise it returns
(the session cookie jar now holds the auth state).  No retry is attempted and
the exception propagates out of the caller's `with` block. -/
def login (r : Response) : Outcome Unit :=
  if r.status ≠ 200 then
    .raised (.exc ("Login failed: " ++ toString r.status ++ " msg: " ++ r.text))
  else if r.text ≠ "OK" then .raised (.exc ("Login failed: " ++ r.text))
  else .ok ()

/-- `download_counts` (example.py lines 79-91): the cookie-scheme variant sends
its arguments as a JSON request body; `detection_class_ids` is embedded as the
JSON array of the list itself (present even when the list is empty, and never
comma-joined).  Non-200 raises `Exception`; else the raw parsed body. -/
def download_counts (section_id : Int) (detection_class_ids : List Int)
    (start_date end_date : PyDate) : Json × (Response → Outcome Json) :=
  (.obj
    [("section_id", .num section_id),
     ("start_date", .str (fmtYmd start_date)),
     ("end_date", .str (fmtYmd end_date)),
     ("detection_class_ids", .arr (detection_class_ids.map Json.num))],
   fun r =>
     if r.status ≠ 200 then
       .raised (.exc ("Download counts failed: " ++ toString r.status ++ " msg: " ++ r.text))
     else .ok r.body)

end ExampleApi

/-! ## The entry point, `main.py` -/

namespace MainModule

/-- The `download_counts` invocation of `main.py` lines 45-47: `today` is
`datetime.today()`, `past_date` is `datetime.today() - timedelta(days=31)`, and
the call passes `start_date=today`, `end_date=past_date` (the later date as the
start) and `section_id=example_section` — the entire section dict, not its
numeric `id`. -/
def main_counts_call (today : PyDateTime) (example_section : List (String × Py))
    (available_insect_ids : List Int) : Request × (Response → Outcome Json) :=
  PatsService.download_counts today (minusDays 31 today) (Py.dict example_section)
    available_insect_ids "D" false

end MainModule

/-! ## Concrete fixtures used by witnesses and counterexamples -/

/-- A concrete rejected response. -/
def r404 : Response := ⟨404, "Not Found", Json.null, ""⟩

/-- A concrete 200 response whose JSON body is the empty object (so every
expected top-level key is missing). -/
def r200empty : Response := ⟨200, "", Json.obj [], ""⟩

/-- A concrete datetime used as an argument fixture. -/
def t0 : PyDateTime := ⟨2024, 7, 8, 12, 0, 0⟩

/-- A concrete date used as an argument fixture. -/
def d0 : PyDate := ⟨2024, 7, 8⟩

/-- A concrete 200 body for `/api/counts` in hourly bin mode: the single `c`
count record carries a raw `datetime` field (and no `date` field), exactly as
in the docstring example of `download_counts`. -/
def c2body : Json :=
  .obj
    [("c", .arr
        [.obj
          [("counts", .arr [.obj [("1", .num 0), ("datetime", .str "20240708_120000")]]),
           ("post_id", .num 21), ("row_id", .num 42)]]),
     ("trapeye", .arr [])]

/-! ## Helper lemmas: fixed-width decimal round-trip -/

/-- A digit character's code point. -/
lemma digitChar_toNat {d : Nat} (h : d < 10) : (digitChar d).toNat = 48 + d := by
  interval_cases d <;> decide

/-- `padChars` always yields exactly `k` characters. -/
lemma padChars_length (k : Nat) : ∀ n, (padChars k n).length = k := by
  induction k with
  | zero => intro n; rfl
  | succ k ih => intro n; simp [padChars, ih]

/-- Reading digits distributes over append. -/
lemma readDigits_append (xs ys : List Char) :
    ∀ acc, readDigits (xs ++ ys) acc = (readDigits xs acc).bind (fun a => readDigits ys a) := by
  induction xs with
  | nil => intro acc; simp [readDigits]
  | cons c cs ih =>
      intro acc
      by_cases h : 48 ≤ c.toNat ∧ c.toNat ≤ 57
      · simp [readDigits, h, ih]
      · simp [readDigits, h]

/-- Reading back a `k`-digit zero-padded number recovers it. -/
lemma readDigits_padChars (k : Nat) :
    ∀ n acc, n < 10 ^ k → readDigits (padChars k n) acc = some (acc * 10 ^ k + n) := by
  induction k with
  | zero =>
      intro n acc h
      have hn : n = 0 := by simpa using h
      subst hn
      simp [padChars, readDigits]
  | succ k ih =>
      intro n acc h
      have hdiv : n / 10 < 10 ^ k := by
        rw [pow_succ] at h
        exact (Nat.div_lt_iff_lt_mul (by norm_num)).mpr h
      rw [padChars, readDigits_append, ih (n / 10) acc hdiv]
      have hm : n % 10 < 10 := Nat.mod_lt _ (by norm_num)
      have ht : (digitChar (n % 10)).toNat = 48 + n % 10 := digitChar_toNat hm
      have hcond : 48 ≤ (digitChar (n % 10)).toNat ∧ (digitChar (n % 10)).toNat ≤ 57 := by
        omega
      simp only [Option.bind_eq_bind, Option.some_bind, readDigits, hcond, if_true, ht]
      rw [if_pos (by omega : 48 ≤ 48 + n % 10 ∧ 48 + n % 10 ≤ 57)]
      congr 1
      have h48 : 48 + n % 10 - 48 = n % 10 := by omega
      rw [h48]
      have hdm : 10 * (n / 10) + n % 10 = n := Nat.div_add_mod n 10
      calc 10 * (acc * 10 ^ k + n / 10) + n % 10
          = acc * (10 ^ k * 10) + (10 * (n / 10) + n % 10) := by ring
        _ = acc * (10 ^ k * 10) + n := by rw [hdm]

/-- Taking exactly the length of the left part of an append returns it. -/
lemma take_len_append (xs ys : List Char) (k : Nat) (h : xs.length = k) :
    (xs ++ ys).take k = xs := by
  subst h; simp

/-- Dropping exactly the length of the left part of an append removes it. -/
lemma drop_len_append (xs ys : List Char) (k : Nat) (h : xs.length = k) :
    (xs ++ ys).drop k = ys := by
  subst h; simp

/-- Formatting a valid date with `"%Y%m%d"` and decoding the string back
recovers the original date. -/
lemma parseYmd_fmtYmd (d : PyDate) (h : d.valid) : parseYmd (fmtYmd d) = some d := by
  obtain ⟨y, m, dd⟩ := d
  have h' : 1 ≤ y ∧ y ≤ 9999 ∧ 1 ≤ m ∧ m ≤ 12 ∧ 1 ≤ dd ∧ dd ≤ 31 := h
  obtain ⟨h1, h2, h3, h4, h5, h6⟩ := h'
  have hy : (padChars 4 y).length = 4 := padChars_length 4 y
  have hm : (padChars 2 m).length = 2 := padChars_length 2 m
  show parseYmdChars (padChars 4 y ++ (padChars 2 m ++ padChars 2 dd)) = some ⟨y, m, dd⟩
  have hlen : (padChars 4 y ++ (padChars 2 m ++ padChars 2 dd)).length = 8 := by
    simp [hy, hm, padChars_length]
  have htake4 : (padChars 4 y ++ (padChars 2 m ++ padChars 2 dd)).take 4 = padChars 4 y :=
    take_len_append _ _ _ hy
  have hdrop4 : (padChars 4 y ++ (padChars 2 m ++ padChars 2 dd)).drop 4
      = padChars 2 m ++ padChars 2 dd := drop_len_append _ _ _ hy
  have htake2 : ((padChars 4 y ++ (padChars 2 m ++ padChars 2 dd)).drop 4).take 2
      = padChars 2 m := by rw [hdrop4]; exact take_len_append _ _ _ hm
  have hdrop6 : (padChars 4 y ++ (padChars 2 m ++ padChars 2 dd)).drop 6 = padChars 2 dd := by
    have h24 : ((padChars 4 y ++ (padChars 2 m ++ padChars 2 dd)).drop 4).drop 2
        = (padChars 4 y ++ (padChars 2 m ++ padChars 2 dd)).drop 6 := by
      rw [List.drop_drop]
    rw [← h24, hdrop4]
    exact drop_len_append _ _ _ hm
  have hy' : y < 10 ^ 4 := by norm_num; omega
  have hm' : m < 10 ^ 2 := by norm_num; omega
  have hd' : dd < 10 ^ 2 := by norm_num; omega
  unfold parseYmdChars
  rw [if_pos hlen, htake4, htake2, hdrop6, readDigits_padChars 4 y 0 hy',
    readDigits_padChars 2 m 0 hm', readDigits_padChars 2 dd 0 hd']
  simp [h1, h2, h3, h4, h5, h6]

/-- Formatting a valid datetime with `"%Y%m%d_%H%M%S"` and decoding the string
back recovers the original datetime. -/
lemma parseYmdHms_fmtYmdHms (t : PyDateTime) (h : t.valid) :
    parseYmdHms (fmtYmdHms t) = some t := by
  obtain ⟨y, mo, dd, hh, mi, ss⟩ := t
  have h' : 1 ≤ y ∧ y ≤ 9999 ∧ 1 ≤ mo ∧ mo ≤ 12 ∧ 1 ≤ dd ∧ dd ≤ 31
      ∧ hh ≤ 23 ∧ mi ≤ 59 ∧ ss ≤ 59 := h
  obtain ⟨h1, h2, h3, h4, h5, h6, h7, h8, h9⟩ := h'
  have hy : (padChars 4 y).length = 4 := padChars_length 4 y
  have hmo : (padChars 2 mo).length = 2 := padChars_length 2 mo
  have hdd : (padChars 2 dd).length = 2 := padChars_length 2 dd
  have hhh : (padChars 2 hh).length = 2 := padChars_length 2 hh
  have hmi : (padChars 2 mi).length = 2 := padChars_length 2 mi
  show parseYmdHmsChars (padChars 4 y ++ (padChars 2 mo ++ (padChars 2 dd ++
      ([Char.ofNat 95] ++ (padChars 2 hh ++ (padChars 2 mi ++ padChars 2 ss))))))
    = some ⟨y, mo, dd, hh, mi, ss⟩
  set cs : List Char := padChars 4 y ++ (padChars 2 mo ++ (padChars 2 dd ++
      ([Char.ofNat 95] ++ (padChars 2 hh ++ (padChars 2 mi ++ padChars 2 ss))))) with hcs
  have hlen : cs.length = 15 := by
    simp [hcs, padChars_length]
  have hdrop4 : cs.drop 4 = padChars 2 mo ++ (padChars 2 dd ++
      ([Char.ofNat 95] ++ (padChars 2 hh ++ (padChars 2 mi ++ padChars 2 ss)))) :=
    drop_len_append _ _ _ hy
  have hdrop6 : cs.drop 6 = padChars 2 dd ++
      ([Char.ofNat 95] ++ (padChars 2 hh ++ (padChars 2 mi ++ padChars 2 ss))) := by
    have hstep : (cs.drop 4).drop 2 = cs.drop 6 := by rw [List.drop_drop]
    rw [← hstep, hdrop4]
    exact drop_len_append _ _ _ hmo
  have hdrop8 : cs.drop 8 = [Char.ofNat 95] ++
      (padChars 2 hh ++ (padChars 2 mi ++ padChars 2 ss)) := by
    have hstep : (cs.drop 6).drop 2 = cs.drop 8 := by rw [List.drop_drop]
    rw [← hstep, hdrop6]
    exact drop_len_append _ _ _ hdd
  have hdrop9 : cs.drop 9 = padChars 2 hh ++ (padChars 2 mi ++ padChars 2 ss) := by
    have hstep : (cs.drop 8).drop 1 = cs.drop 9 := by rw [List.drop_drop]
    rw [← hstep, hdrop8]
    exact drop_len_append _ _ _ rfl
  have hdrop11 : cs.drop 11 = padChars 2 mi ++ padChars 2 ss := by
    have hstep : (cs.drop 9).drop 2 = cs.drop 11 := by rw [List.drop_drop]
    rw [← hstep, hdrop9]
    exact drop_len_append _ _ _ hhh
  have hdrop13 : cs.drop 13 = padChars 2 ss := by
    have hstep : (cs.drop 11).drop 2 = cs.drop 13 := by rw [List.drop_drop]
    rw [← hstep, hdrop11]
    exact drop_len_append _ _ _ hmi
  have htake4 : cs.take 4 = padChars 4 y := take_len_append _ _ _ hy
  have htake6 : (cs.drop 4).take 2 = padChars 2 mo := by
    rw [hdrop4]; exact take_len_append _ _ _ hmo
  have htake8 : (cs.drop 6).take 2 = padChars 2 dd := by
    rw [hdrop6]; exact take_len_append _ _ _ hdd
  have htakeU : (cs.drop 8).take 1 = [Char.ofNat 95] := by
    rw [hdrop8]; exact take_len_append _ _ _ rfl
  have htake11 : (cs.drop 9).take 2 = padChars 2 hh := by
    rw [hdrop9]; exact take_len_append _ _ _ hhh
  have htake13 : (cs.drop 11).take 2 = padChars 2 mi := by
    rw [hdrop11]; exact take_len_append _ _ _ hmi
  have hy' : y < 10 ^ 4 := by norm_num; omega
  have hmo' : mo < 10 ^ 2 := by norm_num; omega
  have hdd' : dd < 10 ^ 2 := by norm_num; omega
  have hhh' : hh < 10 ^ 2 := by norm_num; omega
  have hmi' : mi < 10 ^ 2 := by norm_num; omega
  have hss' : ss < 10 ^ 2 := by norm_num; omega
  unfold parseYmdHmsChars
  rw [if_pos hlen, htake4, htake6, htake8, htakeU, htake11, htake13, hdrop13,
    readDigits_padChars 4 y 0 hy', readDigits_padChars 2 mo 0 hmo',
    readDigits_padChars 2 dd 0 hdd', readDigits_padChars 2 hh 0 hhh',
    readDigits_padChars 2 mi 0 hmi', readDigits_padChars 2 ss 0 hss']
  simp [h1, h2, h3, h4, h5, h6, h7, h8, h9]

/-! ## Claims -/

/-- Claim C1, counterexample.  The claim says every read operation turns a
non-200 response into a typed `RemoteRejected` failure returned to the caller
and never terminates the process; but `download_counts` on a 404 response runs
`sys.exit(1)`, terminating the process. -/
theorem c1_counterexample :
    (PatsService.download_counts t0 t0 (Py.int 1) [] "D" false).2 r404 = .exit 1
    ∧ Outcome.terminatesProcess
        ((PatsService.download_counts t0 t0 (Py.int 1) [] "D" false).2 r404) = true :=
  ⟨rfl, rfl⟩

/-- Claim C1, amended.  On a non-200 response, `download_trapeye_photo` raises
the typed `PatsServiceError` carrying the response body text (not the status);
every other read operation of `pats_service.py` terminates the process with
`sys.exit(1)` instead of returning a typed failure. -/
theorem c1_amended_nonok_behaviour
    (r : Response) (hr : r.status ≠ 200)
    (section_id row_id post_id detection_uid detection_class_id : Int)
    (snapping_mode bin_mode photo_id : String)
    (sid : Py) (ids : List Int) (avg raw_stereo : Bool)
    (row post sysid : Option Int)
    (start_date end_date : PyDateTime) :
    PatsService.download_detection_classes.2 r = .exit 1
    ∧ PatsService.download_sections.2 r = .exit 1
    ∧ (PatsService.download_spots section_id snapping_mode).2 r = .exit 1
    ∧ (PatsService.download_counts start_date end_date sid ids bin_mode avg).2 r = .exit 1
    ∧ (PatsService.download_trapeye_photo_list section_id row_id post_id
        start_date end_date).2 r = .exit 1
    ∧ (PatsService.download_trapeye_photo section_id row_id post_id photo_id).2 r
        = .raised (.patsServiceError r.text)
    ∧ (PatsService.download_c_detection_features section_id row post sysid
        detection_class_id start_date end_date).2 r = .exit 1
    ∧ (PatsService.download_c_flight_track section_id detection_uid).2 r = .exit 1
    ∧ (PatsService.download_c_video section_id detection_uid raw_stereo).2 r = .exit 1 := by
  refine ⟨?_, ?_, ?_, ?_, ?_, ?_, ?_, ?_, ?_⟩ <;>
    simp [PatsService.download_detection_classes, PatsService.download_sections,
      PatsService.download_spots, PatsService.download_counts,
      PatsService.download_trapeye_photo_list, PatsService.download_trapeye_photo,
      PatsService.download_c_detection_features, PatsService.download_c_flight_track,
      PatsService.download_c_video, hr]

/-- Witness for the amended C1 at a concrete 404 response and concrete
arguments. -/
theorem c1_amended_nonok_behaviour_witness :
    r404.status ≠ 200
    ∧ (PatsService.download_detection_classes.2 r404 = .exit 1
      ∧ PatsService.download_sections.2 r404 = .exit 1
      ∧ (PatsService.download_spots 1 "disabled").2 r404 = .exit 1
      ∧ (PatsService.download_counts t0 t0 (Py.int 1) [3] "D" false).2 r404 = .exit 1
      ∧ (PatsService.download_trapeye_photo_list 1 2 3 t0 t0).2 r404 = .exit 1
      ∧ (PatsService.download_trapeye_photo 1 2 3 "20240713_140300").2 r404
          = .raised (.patsServiceError r404.text)
      ∧ (PatsService.download_c_detection_features 1 (some 2) (some 3) Option.none
          4 t0 t0).2 r404 = .exit 1
      ∧ (PatsService.download_c_flight_track 1 9).2 r404 = .exit 1
      ∧ (PatsService.download_c_video 1 9 false).2 r404 = .exit 1) :=
  ⟨by decide,
   c1_amended_nonok_behaviour r404 (by decide) 1 2 3 9 4 "disabled" "D" "20240713_140300"
     (Py.int 1) [3] false false (some 2) (some 3) Option.none t0 t0⟩

/-- Claim C2, counterexample.  On a 200 response to `/api/counts` whose count
record carries a raw `datetime` field, `download_counts` returns the parsed
body completely unchanged: the caller receives the record still keyed
`datetime`, with no unified timestamp field — the decoder performs no
normalization. -/
theorem c2_counterexample :
    (PatsService.download_counts t0 t0 (Py.int 1) [1] "H" false).2 ⟨200, "", c2body, ""⟩
      = .ok c2body
    ∧ (Json.obj [("1", Json.num 0), ("datetime", Json.str "20240708_120000")]).getKey
        "datetime" = some (Json.str "20240708_120000")
    ∧ (Json.obj [("1", Json.num 0), ("datetime", Json.str "20240708_120000")]).getKey
        "date" = Option.none :=
  ⟨rfl, rfl, rfl⟩

/-- Claim C2, amended.  `download_counts` hands the caller the raw decoded JSON
body unchanged for every 200 response; the `date`/`datetime` reshaping is not
done by the client but by caller code (`plot_examples.c_binned_per_day_plot`,
lines 38-44). -/
theorem c2_amended_decoder_returns_raw_body
    (start_date end_date : PyDateTime) (sid : Py) (ids : List Int)
    (bin_mode : String) (avg : Bool) (r : Response) (hr : r.status = 200) :
    (PatsService.download_counts start_date end_date sid ids bin_mode avg).2 r = .ok r.body := by
  simp [PatsService.download_counts, hr]

/-- Witness for the amended C2 at a concrete 200 response carrying a raw
`datetime`-keyed record. -/
theorem c2_amended_decoder_returns_raw_body_witness :
    (Response.mk 200 "" c2body "").status = 200
    ∧ (PatsService.download_counts t0 t0 (Py.int 1) [1] "H" false).2 ⟨200, "", c2body, ""⟩
        = .ok c2body :=
  ⟨rfl, c2_amended_decoder_returns_raw_body t0 t0 (Py.int 1) [1] "H" false ⟨200, "", c2body, ""⟩ rfl⟩

/-- Claim C3.  The sections listing of `pats_service.py` targets `/api/sections`,
but the `download_sections` of the legacy variant `patsService.py` (line 152)
sends its GET to `/api/detection_classes` while still extracting the `sections`
key - so against a server that answers that endpoint with detection classes, the
legacy function always dies on the missing key. -/
theorem c3_sections_endpoint_bug :
    PatsServiceLegacy.download_sections.1.path = "/api/detection_classes"
    ∧ PatsServiceLegacy.download_sections.1.path ≠ "/api/sections"
    ∧ PatsService.download_sections.1.path = "/api/sections"
    ∧ PatsServiceLegacy.download_sections.2
        ⟨200, "", Json.obj [("detection_classes", Json.obj [])], ""⟩
        = .raised (.keyError "sections") :=
  ⟨rfl, by decide, rfl, rfl⟩

/-- Claim C4, counterexample.  In the cookie-scheme variant
(`example.py` `download_counts`), the `detection_class_ids` parameter is placed
in the JSON request body as the list itself: with an empty list the parameter
is still present (as the empty array, not absent), and with a non-empty list it
is a JSON array, not a comma-joined string. -/
theorem c4_counterexample :
    (ExampleApi.download_counts 123 [] d0 d0).1.getKey "detection_class_ids"
      = some (Json.arr [])
    ∧ (ExampleApi.download_counts 123 [1, 2] d0 d0).1.getKey "detection_class_ids"
      = some (Json.arr [Json.num 1, Json.num 2]) :=
  ⟨rfl, rfl⟩

/-- Claim C4, amended.  In the token-scheme client (`pats_service.py`
`download_counts`), the encoded request omits `detection_class_ids` entirely
when the id list is empty (the params entry is `None`, which the `requests`
encoding drops) and carries the comma-joined id string when it is non-empty;
the cookie-scheme example instead embeds the list as a JSON array that is
present even when empty. -/
theorem c4_amended_empty_ids_omitted
    (start_date end_date : PyDateTime) (sid : Py) (ids : List Int)
    (bin_mode : String) (avg : Bool) :
    (ids = [] →
      (encodeParams (PatsService.download_counts start_date end_date sid ids
        bin_mode avg).1.params).lookup "detection_class_ids" = Option.none)
    ∧ (ids ≠ [] →
      (encodeParams (PatsService.download_counts start_date end_date sid ids
        bin_mode avg).1.params).lookup "detection_class_ids" = some (commaJoin ids)) := by
  constructor
  · intro h
    subst h
    simp [PatsService.download_counts, encodeParams, List.lookup]
  · intro h
    match ids, h with
    | i :: rest, _ =>
        simp [PatsService.download_counts, encodeParams, List.lookup]

/-- Witness for the amended C4: the empty list gives no parameter, the list
`[3, 7]` gives the comma-joined string. -/
theorem c4_amended_empty_ids_omitted_witness :
    (encodeParams (PatsService.download_counts t0 t0 (Py.int 1) [] "D"
      false).1.params).lookup "detection_class_ids" = Option.none
    ∧ (encodeParams (PatsService.download_counts t0 t0 (Py.int 1) [3, 7] "D"
      false).1.params).lookup "detection_class_ids" = some (commaJoin [3, 7]) :=
  ⟨(c4_amended_empty_ids_omitted t0 t0 (Py.int 1) [] "D" false).1 rfl,
   (c4_amended_empty_ids_omitted t0 t0 (Py.int 1) [3, 7] "D" false).2 (by decide)⟩

/-- Claim C5.  Every boolean flag the operations take — `average_24h_bin` of
`download_counts`, `raw_stereo` of `download_c_video`, and `map_snapping` of
the legacy `download_spots` — reaches the encoded query string as the literal
string `"0"` when false and `"1"` when true. -/
theorem c5_bool_flags_as_01
    (start_date end_date : PyDateTime) (sid : Py) (ids : List Int) (bin_mode : String)
    (avg : Bool) (section_id detection_uid : Int) (raw_stereo : Bool)
    (legacy_section_id : Int) (map_snapping : Bool) :
    (encodeParams (PatsService.download_counts start_date end_date sid ids bin_mode
      avg).1.params).lookup "average_24h_bin" = some (if avg then "1" else "0")
    ∧ (encodeParams (PatsService.download_c_video section_id detection_uid
      raw_stereo).1.params).lookup "raw_stereo" = some (if raw_stereo then "1" else "0")
    ∧ (encodeParams (PatsServiceLegacy.download_spots legacy_section_id
      map_snapping).1.params).lookup "map_snapping" = some (if map_snapping then "1" else "0") := by
  refine ⟨?_, ?_, ?_⟩
  · cases avg <;> cases ids <;>
      simp [PatsService.download_counts, encodeParams, List.lookup] <;> rfl
  · cases raw_stereo <;>
      simp [PatsService.download_c_video, encodeParams, List.lookup] <;> rfl
  · cases map_snapping <;>
      simp [PatsServiceLegacy.download_spots, encodeParams, List.lookup] <;> rfl

/-- Claim C6.  `strftime` on the date 2024-07-08 yields `"20240708"`, on the
datetime 2024-07-08 22:25:45 yields `"20240708_222545"`, and decoding a
formatted string recovers the original date or datetime for every valid date
and datetime. -/
theorem c6_date_roundtrip (d : PyDate) (t : PyDateTime) (hd : d.valid) (ht : t.valid) :
    fmtYmd ⟨2024, 7, 8⟩ = "20240708"
    ∧ fmtYmdHms ⟨2024, 7, 8, 22, 25, 45⟩ = "20240708_222545"
    ∧ parseYmd (fmtYmd d) = some d
    ∧ parseYmdHms (fmtYmdHms t) = some t :=
  ⟨by decide, by decide, parseYmd_fmtYmd d hd, parseYmdHms_fmtYmdHms t ht⟩

/-- Witness for C6 at the dates named by the claim. -/
theorem c6_date_roundtrip_witness :
    (PyDate.mk 2024 7 8).valid
    ∧ (PyDateTime.mk 2024 7 8 22 25 45).valid
    ∧ (fmtYmd ⟨2024, 7, 8⟩ = "20240708"
      ∧ fmtYmdHms ⟨2024, 7, 8, 22, 25, 45⟩ = "20240708_222545"
      ∧ parseYmd (fmtYmd ⟨2024, 7, 8⟩) = some ⟨2024, 7, 8⟩
      ∧ parseYmdHms (fmtYmdHms ⟨2024, 7, 8, 22, 25, 45⟩) = some ⟨2024, 7, 8, 22, 25, 45⟩) :=
  ⟨by decide, by decide,
   c6_date_roundtrip ⟨2024, 7, 8⟩ ⟨2024, 7, 8, 22, 25, 45⟩ (by decide) (by decide)⟩

/-- Claim C7.  `download_c_detection_features` with a system id sends the legacy
`system_id` parameter and no `row_id`/`post_id`; with no system id it sends
`row_id`/`post_id` and no `system_id`; and the response handling (status check
plus extraction of the `data` records) is the identical function in both
addressing modes. -/
theorem c7_legacy_addressing
    (section_id : Int) (row_id post_id : Option Int) (sysid : Int)
    (detection_class_id : Int) (start_date end_date : PyDateTime) :
    (PatsService.download_c_detection_features section_id row_id post_id (some sysid)
      detection_class_id start_date end_date).1.params.lookup "system_id"
      = some (.str (toString sysid))
    ∧ (PatsService.download_c_detection_features section_id row_id post_id (some sysid)
      detection_class_id start_date end_date).1.params.lookup "row_id" = Option.none
    ∧ (PatsService.download_c_detection_features section_id row_id post_id (some sysid)
      detection_class_id start_date end_date).1.params.lookup "post_id" = Option.none
    ∧ (PatsService.download_c_detection_features section_id row_id post_id Option.none
      detection_class_id start_date end_date).1.params.lookup "row_id"
      = some (.str (strOfOptInt row_id))
    ∧ (PatsService.download_c_detection_features section_id row_id post_id Option.none
      detection_class_id start_date end_date).1.params.lookup "post_id"
      = some (.str (strOfOptInt post_id))
    ∧ (PatsService.download_c_detection_features section_id row_id post_id Option.none
      detection_class_id start_date end_date).1.params.lookup "system_id" = Option.none
    ∧ (PatsService.download_c_detection_features section_id row_id post_id (some sysid)
      detection_class_id start_date end_date).2
      = (PatsService.download_c_detection_features section_id row_id post_id Option.none
      detection_class_id start_date end_date).2 :=
  ⟨rfl, rfl, rfl, rfl, rfl, rfl, rfl⟩

/-- Claim C8.  The cookie-scheme `login` succeeds exactly when the response has
status 200 and the literal body `"OK"`; every other response produces a raised
(catchable) exception and nothing else — no retry, no exit, no partially
usable state. -/
theorem c8_cookie_login_iff (r : Response) :
    (ExampleApi.login r = .ok () ↔ r.status = 200 ∧ r.text = "OK")
    ∧ (ExampleApi.login r = .ok () ∨ ∃ m, ExampleApi.login r = .raised (.exc m)) := by
  unfold ExampleApi.login
  by_cases h1 : r.status = 200
  · by_cases h2 : r.text = "OK"
    · simp [h1, h2]
    · simp [h1, h2]
  · simp [h1]

/-- Witness for C8: a 200 `"OK"` response logs in, a 500 response does not. -/
theorem c8_cookie_login_iff_witness :
    ExampleApi.login ⟨200, "OK", Json.null, ""⟩ = .ok ()
    ∧ ExampleApi.login ⟨500, "boom", Json.null, ""⟩ ≠ .ok () :=
  ⟨(c8_cookie_login_iff ⟨200, "OK", Json.null, ""⟩).1.mpr ⟨rfl, rfl⟩,
   fun hc => by
     have h := (c8_cookie_login_iff ⟨500, "boom", Json.null, ""⟩).1.mp hc
     exact absurd h.1 (by decide)⟩

/-- Claim C9, counterexample.  A 200 response whose body lacks the
`detection_classes` key makes `download_detection_classes` raise a bare
`KeyError`; this is an unhandled builtin exception, not a failure of the
repository's one typed failure class (`PatsServiceError`), and no `DecodeFailed`
type exists in the code at all. -/
theorem c9_counterexample :
    PatsService.download_detection_classes.2 r200empty
      = .raised (.keyError "detection_classes")
    ∧ Outcome.isTypedPatsFailure (PatsService.download_detection_classes.2 r200empty)
      = false :=
  ⟨rfl, rfl⟩

/-- Claim C9, amended.  For every operation that extracts a named top-level key
from a 200 JSON response, a body missing that key makes the call raise a
`KeyError` that propagates to the caller — never a default value and never a
silent swallow — but the failure is an untyped builtin exception, not a typed
`DecodeFailed` value. -/
theorem c9_amended_missing_key_raises_keyerror
    (r : Response) (h200 : r.status = 200)
    (section_id row_id post_id detection_uid detection_class_id : Int)
    (row post sysid : Option Int) (start_date end_date : PyDateTime) :
    (r.body.getKey "access_token" = Option.none →
      PatsService.retrieve_token_from_server r = .raised (.keyError "access_token"))
    ∧ (r.body.getKey "detection_classes" = Option.none →
      PatsService.download_detection_classes.2 r = .raised (.keyError "detection_classes"))
    ∧ (r.body.getKey "sections" = Option.none →
      PatsService.download_sections.2 r = .raised (.keyError "sections"))
    ∧ (r.body.getKey "photos" = Option.none →
      (PatsService.download_trapeye_photo_list section_id row_id post_id
        start_date end_date).2 r = .raised (.keyError "photos"))
    ∧ (r.body.getKey "data" = Option.none →
      (PatsService.download_c_detection_features section_id row post sysid
        detection_class_id start_date end_date).2 r = .raised (.keyError "data"))
    ∧ (r.body.getKey "data" = Option.none →
      (PatsService.download_c_flight_track section_id detection_uid).2 r
        = .raised (.keyError "data")) := by
  refine ⟨?_, ?_, ?_, ?_, ?_, ?_⟩ <;> intro h <;>
    simp [PatsService.retrieve_token_from_server, PatsService.download_detection_classes,
      PatsService.download_sections, PatsService.download_trapeye_photo_list,
      PatsService.download_c_detection_features, PatsService.download_c_flight_track,
      pyIndex, h200, h]

/-- Witness for the amended C9 at the concrete empty-object 200 response. -/
theorem c9_amended_missing_key_raises_keyerror_witness :
    r200empty.status = 200
    ∧ PatsService.retrieve_token_from_server r200empty = .raised (.keyError "access_token")
    ∧ PatsService.download_detection_classes.2 r200empty
        = .raised (.keyError "detection_classes")
    ∧ PatsService.download_sections.2 r200empty = .raised (.keyError "sections")
    ∧ (PatsService.download_trapeye_photo_list 1 2 3 t0 t0).2 r200empty
        = .raised (.keyError "photos")
    ∧ (PatsService.download_c_detection_features 1 (some 2) (some 3) Option.none
        4 t0 t0).2 r200empty = .raised (.keyError "data")
    ∧ (PatsService.download_c_flight_track 1 9).2 r200empty = .raised (.keyError "data") :=
  ⟨rfl,
   (c9_amended_missing_key_raises_keyerror r200empty rfl 1 2 3 9 4 (some 2) (some 3)
     Option.none t0 t0).1 rfl,
   (c9_amended_missing_key_raises_keyerror r200empty rfl 1 2 3 9 4 (some 2) (some 3)
     Option.none t0 t0).2.1 rfl,
   (c9_amended_missing_key_raises_keyerror r200empty rfl 1 2 3 9 4 (some 2) (some 3)
     Option.none t0 t0).2.2.1 rfl,
   (c9_amended_missing_key_raises_keyerror r200empty rfl 1 2 3 9 4 (some 2) (some 3)
     Option.none t0 t0).2.2.2.1 rfl,
   (c9_amended_missing_key_raises_keyerror r200empty rfl 1 2 3 9 4 (some 2) (some 3)
     Option.none t0 t0).2.2.2.2.1 rfl,
   (c9_amended_missing_key_raises_keyerror r200empty rfl 1 2 3 9 4 (some 2) (some 3)
     Option.none t0 t0).2.2.2.2.2 rfl⟩

set_option maxRecDepth 8000 in
/-- Claim C10.  `download_counts` validates nothing client-side: for every
section id value (coerced with `str()`), every id list and every start/end
datetime pair — the end being allowed to precede the start — the request is
built and carries exactly the coerced values.  And `main.py` lines 45-47 indeed
invoke it with `start_date = today`, `end_date = today - timedelta(days=31)`
and `section_id` bound to the whole section dict: at a concrete `today` of
2026-10-12, the request carries a start_date of 20261012 and an end_date of 20260911
(31 days earlier than the start) and a `section_id` that is the brace-delimited
repr of the dict, not its numeric id. -/
theorem c10_counts_no_validation :
    (∀ (start_date end_date : PyDateTime) (sid : Py) (ids : List Int)
      (bin_mode : String) (avg : Bool),
      (PatsService.download_counts start_date end_date sid ids bin_mode avg).1.method = "GET"
      ∧ (PatsService.download_counts start_date end_date sid ids bin_mode avg).1.path
          = "/api/counts"
      ∧ (PatsService.download_counts start_date end_date sid ids bin_mode
          avg).1.params.lookup "section_id" = some (.str (pyStr sid))
      ∧ (PatsService.download_counts start_date end_date sid ids bin_mode
          avg).1.params.lookup "start_date" = some (.str (fmtYmdOfDateTime start_date))
      ∧ (PatsService.download_counts start_date end_date sid ids bin_mode
          avg).1.params.lookup "end_date" = some (.str (fmtYmdOfDateTime end_date)))
    ∧ (∀ (today : PyDateTime) (example_section : List (String × Py)) (ids : List Int),
      MainModule.main_counts_call today example_section ids
        = PatsService.download_counts today (minusDays 31 today) (Py.dict example_section)
            ids "D" false)
    ∧ (MainModule.main_counts_call ⟨2026, 10, 12, 9, 30, 0⟩ [("id", Py.int 123)]
        [3]).1.params.lookup "section_id" = some (.str (pyStr (Py.dict [("id", Py.int 123)])))
    ∧ (MainModule.main_counts_call ⟨2026, 10, 12, 9, 30, 0⟩ [("id", Py.int 123)]
        [3]).1.params.lookup "start_date" = some (.str "20261012")
    ∧ (MainModule.main_counts_call ⟨2026, 10, 12, 9, 30, 0⟩ [("id", Py.int 123)]
        [3]).1.params.lookup "end_date" = some (.str "20260911")
    ∧ pyStr (Py.dict [("id", Py.int 123)])
        = lbrace ++ squo ++ "id" ++ squo ++ ": 123" ++ rbrace := by
  refine ⟨?_, ?_, ?_, ?_, ?_, ?_⟩
  · intro start_date end_date sid ids bin_mode avg
    exact ⟨rfl, rfl, rfl, rfl, rfl⟩
  · intro today example_section ids
    rfl
  · rfl
  · decide
  · decide
  · decide
